import Mathlib

/-!
Shallow embedding of the `core` package of gocondor/condor: the `App`
bootstrap struct, its route registration (`handleRoute`, `registerRoutes`),
environment helpers (`SetEnv`, `getHTTPSHost`, `getHTTPHost`), the gin-mode
setter (`SetAppMode`), and the server entry point (`Run`).

The gin engine is modelled by what the wrapper observably does to it:
`Use` appends a middleware, each verb method appends a registration.
Handler functions are abstract identifiers (`Nat`).  The process
environment is a total function from variable names to string values, with
`""` standing for "unset" exactly as Go's `os.Getenv` reports it.
Effectful methods are embedded in state-passing style (`App → args →
App × result`), mirroring the Go pointer receiver.
-/

namespace Condor

/-- The process environment: `os.Getenv` returns `""` for unset variables. -/
def Env : Type := String → String

/-- Model of `os.Setenv`. -/
def Setenv (env : Env) (key val : String) : Env :=
  fun k => if k = key then val else env k

/-- Modelled from the spec: the `Features` struct (declared elsewhere in the
repository, outside the provided sources) is "a `Features` flag set"; its
fields are not needed by any claim, so it is modelled as an abstract list of
enabled feature flags. -/
structure Features where
  flags : List String
deriving Repr, DecidableEq

/-- The `App` struct of the `core` package. -/
structure App where
  Features : Features
deriving Repr, DecidableEq

/-- `New` initiates the app struct with an empty `Features`. -/
def New : App := { Features := { flags := [] } }

/-- The seven HTTP verbs the router wrapper can register under. -/
inductive Verb
  | GET | POST | DELETE | PATCH | PUT | OPTIONS | HEAD
deriving Repr, DecidableEq

/-- A single registration made on the gin engine: verb, path and the ordered
handler chain (handlers are abstract identifiers). -/
structure Registration where
  verb : Verb
  path : String
  handlers : List Nat
deriving Repr, DecidableEq

/-- The gin engine, modelled by the mutations this wrapper performs on it:
a list of global middlewares (added with `Use`) and the ordered list of route
registrations. -/
structure GinEngine where
  middlewares : List Nat
  registrations : List Registration
deriving Repr, DecidableEq

/-- `gin.Default()` / `gin.New()`: a fresh engine with no registrations made
by this wrapper yet. -/
def ginDefault : GinEngine := { middlewares := [], registrations := [] }

/-- Append one registration to the engine (shared body of the verb methods). -/
def GinEngine.register (e : GinEngine) (v : Verb) (path : String)
    (handlers : List Nat) : GinEngine :=
  { e with registrations := e.registrations ++ [⟨v, path, handlers⟩] }

/-- `engine.GET(path, handlers...)`. -/
def GinEngine.GET (e : GinEngine) (path : String) (handlers : List Nat) : GinEngine :=
  e.register Verb.GET path handlers

/-- `engine.POST(path, handlers...)`. -/
def GinEngine.POST (e : GinEngine) (path : String) (handlers : List Nat) : GinEngine :=
  e.register Verb.POST path handlers

/-- `engine.DELETE(path, handlers...)`. -/
def GinEngine.DELETE (e : GinEngine) (path : String) (handlers : List Nat) : GinEngine :=
  e.register Verb.DELETE path handlers

/-- `engine.PATCH(path, handlers...)`. -/
def GinEngine.PATCH (e : GinEngine) (path : String) (handlers : List Nat) : GinEngine :=
  e.register Verb.PATCH path handlers

/-- `engine.PUT(path, handlers...)`. -/
def GinEngine.PUT (e : GinEngine) (path : String) (handlers : List Nat) : GinEngine :=
  e.register Verb.PUT path handlers

/-- `engine.OPTIONS(path, handlers...)`. -/
def GinEngine.OPTIONS (e : GinEngine) (path : String) (handlers : List Nat) : GinEngine :=
  e.register Verb.OPTIONS path handlers

/-- `engine.HEAD(path, handlers...)`. -/
def GinEngine.HEAD (e : GinEngine) (path : String) (handlers : List Nat) : GinEngine :=
  e.register Verb.HEAD path handlers

/-- `engine.Use(handler)` appends one middleware. -/
def GinEngine.Use (e : GinEngine) (h : Nat) : GinEngine :=
  { e with middlewares := e.middlewares ++ [h] }

/-- A `routing.Route`: method string, path, ordered handler chain. -/
structure Route where
  Method : String
  Path : String
  Handlers : List Nat
deriving Repr, DecidableEq

/-- `handleRoute` from `src/unnamed/part_000` lines 133-150: a switch on the
route's method string; each recognized lower-case verb registers the handler
chain under the matching gin verb method, anything else falls through the
switch and does nothing. -/
def handleRoute (app : App) (route : Route) (ginEngine : GinEngine) :
    App × GinEngine :=
  match route.Method with
  | "get" => (app, ginEngine.GET route.Path route.Handlers)
  | "post" => (app, ginEngine.POST route.Path route.Handlers)
  | "delete" => (app, ginEngine.DELETE route.Path route.Handlers)
  | "patch" => (app, ginEngine.PATCH route.Path route.Handlers)
  | "put" => (app, ginEngine.PUT route.Path route.Handlers)
  | "options" => (app, ginEngine.OPTIONS route.Path route.Handlers)
  | "head" => (app, ginEngine.HEAD route.Path route.Handlers)
  | _ => (app, ginEngine)

/-- The verb a method string is dispatched to by `handleRoute`'s switch,
`none` when the string matches no case. -/
def verbOfMethod : String → Option Verb
  | "get" => some Verb.GET
  | "post" => some Verb.POST
  | "delete" => some Verb.DELETE
  | "patch" => some Verb.PATCH
  | "put" => some Verb.PUT
  | "options" => some Verb.OPTIONS
  | "head" => some Verb.HEAD
  | _ => none

/-- `registerRoutes`: folds `handleRoute` over the router's routes. -/
def registerRoutes (app : App) (router : List Route) (engine : GinEngine) :
    App × GinEngine :=
  router.foldl (fun p route => handleRoute p.1 route p.2) (app, engine)

/-- `IntegratePackages`: `Use` each handler func on the engine in order. -/
def IntegratePackages (app : App) (engine : GinEngine)
    (handlerFuncs : List Nat) : App × GinEngine :=
  (app, handlerFuncs.foldl GinEngine.Use engine)

/-- `useMiddlewares`: `Use` each middleware of the middlewares engine. -/
def useMiddlewares (app : App) (engine : GinEngine)
    (middlewares : List Nat) : App × GinEngine :=
  (app, middlewares.foldl GinEngine.Use engine)

/-- `FeaturesControl` sets the app's `Features` to its argument. -/
def FeaturesControl (app : App) (features : Features) : App :=
  { app with Features := features }

/-- `SetEnv`: for each key/value pair, `os.Setenv(TrimSpace(key),
TrimSpace(val))`.  The Go map is modelled as a list of pairs. -/
def SetEnv (app : App) (envMap : List (String × String)) (env : Env) :
    App × Env :=
  (app, envMap.foldl (fun e p => Setenv e p.1.trim p.2.trim) env)

/-- `Bootstrap` initiates the external sub-engines (package integrator,
middlewares engine, routing engine, database, cache); none of those package
constructors receives the app, so the app itself is untouched. -/
def Bootstrap (app : App) : App := app

/-- gin's `DebugMode` constant. -/
def DebugMode : String := "debug"

/-- gin's `ReleaseMode` constant. -/
def ReleaseMode : String := "release"

/-- gin's `TestMode` constant. -/
def TestMode : String := "test"

/-- `SetAppMode`: the gin mode global after the call is the argument when it
is one of gin's three mode constants, `TestMode` otherwise. -/
def SetAppMode (app : App) (mode : String) : App × String :=
  if mode = ReleaseMode || mode = TestMode || mode = DebugMode then
    (app, mode)
  else
    (app, TestMode)

/-- `getHTTPSHost`: `APP_HTTPS_HOST`, falling back to `APP_HTTP_HOST`, then
to `"localhost"`. -/
def getHTTPSHost (app : App) (env : Env) : App × String :=
  let host := env "APP_HTTPS_HOST"
  let host := if host = "" then env "APP_HTTP_HOST" else host
  let host := if host = "" then "localhost" else host
  (app, host)

/-- `getHTTPHost`: `APP_HTTP_HOST`, falling back to `"localhost"`. -/
def getHTTPHost (app : App) (env : Env) : App × String :=
  let host := env "APP_HTTP_HOST"
  let host := if host = "" then "localhost" else host
  (app, host)

/-- Go's `strconv.ParseBool` with the error ignored, as `Run` uses it: the
six accepted true spellings give `true`; the six false spellings and every
unparsable string give `false` (`ParseBool` returns the zero value alongside
its error). -/
def parseBoolDefFalse (s : String) : Bool :=
  s = "1" || s = "t" || s = "T" || s = "true" || s = "TRUE" || s = "True"

/-- The fixed relative log file path constant `logsFilePath`. -/
def logsFilePath : String := "logs/app.log"

/-- The observable outcome of `Run`: whether it panicked, and which listeners
it configured and started with which addresses and engines. -/
structure RunResult where
  panicked : Bool
  httpsStarted : Bool
  httpsAddr : Option String
  certFile : Option String
  keyFile : Option String
  httpsEngine : Option GinEngine
  redirectStarted : Bool
  redirectAddr : Option String
  httpAddr : Option String
  httpEngine : Option GinEngine
deriving Repr, DecidableEq

/-- The outcome of `Run` when opening the log file fails: `panic(err)`,
nothing started. -/
def panicOutcome : RunResult :=
  { panicked := true, httpsStarted := false, httpsAddr := none,
    certFile := none, keyFile := none, httpsEngine := none,
    redirectStarted := false, redirectAddr := none,
    httpAddr := none, httpEngine := none }

/-- `Run` from `src/unnamed/part_000` lines 73-131.  Inputs beyond the port
string are the ambient state the Go code reads: the process environment, the
routes held by the routing engine, the integrations held by the package
integrator, whether opening a given log file path succeeds, and the result
the spawned `RunTLS` goroutine would produce (`tlsResult`; the Go statement
`go httpsGinEngine.RunTLS(...)` discards it, so the definition ignores it). -/
def Run (app : App) (env : Env) (router : List Route)
    (integrations : List Nat) (logOpenOk : String → Bool)
    (tlsResult : Option String) (portNumber : String) : App × RunResult :=
  let portNumber := if portNumber = "" then "80" else portNumber
  if logOpenOk logsFilePath then
    let httpGinEngine := ginDefault
    let httpsGinEngine := ginDefault
    let httpsOn := parseBoolDefFalse (env "APP_HTTPS_ON")
    let redirectToHTTPS := parseBoolDefFalse (env "APP_REDIRECT_HTTP_TO_HTTPS")
    let httpsState :
        App × Option String × Option String × Option String × Option GinEngine :=
      if httpsOn then
        let p1 := IntegratePackages app httpsGinEngine integrations
        let p2 := registerRoutes p1.1 router p1.2
        let certFile := env "APP_HTTPS_CERT_FILE_PATH"
        let keyFile := env "APP_HTTPS_KEY_FILE_PATH"
        let p3 := getHTTPSHost p2.1 env
        (p3.1, some (p3.2 ++ ":443"), some certFile, some keyFile, some p2.2)
      else (app, none, none, none, none)
    let redirectState : App × Option String :=
      if httpsOn && redirectToHTTPS then
        let p := getHTTPHost httpsState.1 env
        (p.1, some (p.2 ++ ":" ++ portNumber))
      else (httpsState.1, none)
    let q1 := IntegratePackages redirectState.1 httpGinEngine integrations
    let q2 := registerRoutes q1.1 router q1.2
    let q3 := getHTTPHost q2.1 env
    (q3.1,
     { panicked := false, httpsStarted := httpsOn,
       httpsAddr := httpsState.2.1, certFile := httpsState.2.2.1,
       keyFile := httpsState.2.2.2.1, httpsEngine := httpsState.2.2.2.2,
       redirectStarted := httpsOn && redirectToHTTPS,
       redirectAddr := redirectState.2,
       httpAddr := some (q3.2 ++ ":" ++ portNumber), httpEngine := some q2.2 })
  else
    (app, panicOutcome)

/-! ### Helper lemmas (shared; not claim theorems) -/

/-- `handleRoute` never replaces the receiver. -/
theorem handleRoute_fst (app : App) (route : Route) (e : GinEngine) :
    (handleRoute app route e).1 = app := by
  unfold handleRoute
  split <;> rfl

/-- `registerRoutes` never replaces the receiver. -/
theorem registerRoutes_fst (app : App) (router : List Route) (e : GinEngine) :
    (registerRoutes app router e).1 = app := by
  unfold registerRoutes
  induction router generalizing app e with
  | nil => rfl
  | cons route rest ih =>
    simp only [List.foldl_cons]
    exact (ih (handleRoute app route e).1 (handleRoute app route e).2).trans
      (handleRoute_fst app route e)

/-- `Run` never replaces the receiver. -/
theorem Run_fst (app : App) (env : Env) (router : List Route)
    (ints : List Nat) (logOpenOk : String → Bool) (tls : Option String)
    (port : String) :
    (Run app env router ints logOpenOk tls port).1 = app := by
  unfold Run
  cases hl : logOpenOk logsFilePath with
  | false => rfl
  | true =>
    by_cases h1 : parseBoolDefFalse (env "APP_HTTPS_ON") <;>
      by_cases h2 : parseBoolDefFalse (env "APP_REDIRECT_HTTP_TO_HTTPS") <;>
        simp [h1, h2, IntegratePackages, getHTTPHost, getHTTPSHost,
          registerRoutes_fst]

/-- The result of the `SetEnv` fold at any variable `q`: the trimmed value of
the last pair whose trimmed key is `q`, the previous value otherwise. -/
theorem SetEnv_fold_char (pairs : List (String × String)) (env : Env)
    (q : String) :
    (pairs.foldl (fun e p => Setenv e p.1.trim p.2.trim) env) q
      = match pairs.reverse.find? (fun p => p.1.trim = q) with
        | some p => p.2.trim
        | none => env q := by
  induction pairs generalizing env with
  | nil => rfl
  | cons hd tl ih =>
    simp only [List.foldl_cons, List.reverse_cons, List.find?_append]
    rw [ih]
    cases hfind : tl.reverse.find? (fun p => decide (p.1.trim = q)) with
    | some p => simp [Option.or]
    | none =>
      simp only [Option.or, List.find?_cons]
      by_cases hq : hd.1.trim = q
      · simp [hq, Setenv]
      · simp [hq, Setenv, Ne.symm hq]

/-- A concrete environment with only `APP_HTTPS_ON` set (to `"true"`). -/
def envHttpsOnly : Env :=
  fun k => if k = "APP_HTTPS_ON" then "true" else ""

/-- A concrete environment with only `APP_REDIRECT_HTTP_TO_HTTPS` set. -/
def envRedirectOnly : Env :=
  fun k => if k = "APP_REDIRECT_HTTP_TO_HTTPS" then "true" else ""

/-! ### Claim theorems -/

/-- C1: for every route whose `Method` is one of the seven lower-case strings
`get`, `post`, `delete`, `patch`, `put`, `options`, `head`, `handleRoute`
appends exactly one registration to the engine, under the corresponding verb
(`verbOfMethod`) at the route's `Path` with the route's handler chain, and
touches nothing else on the engine. -/
theorem handleRoute_registers_once (app : App) (route : Route) (e : GinEngine)
    (v : Verb) (h : verbOfMethod route.Method = some v) :
    (handleRoute app route e).2.registrations
        = e.registrations ++ [⟨v, route.Path, route.Handlers⟩]
      ∧ (handleRoute app route e).2.middlewares = e.middlewares := by
  obtain ⟨m, p, hs⟩ := route
  unfold verbOfMethod at h
  unfold handleRoute
  split at h <;>
    simp_all [GinEngine.GET, GinEngine.POST, GinEngine.DELETE, GinEngine.PATCH,
      GinEngine.PUT, GinEngine.OPTIONS, GinEngine.HEAD, GinEngine.register]

/-- Witness for C1 at a concrete route. -/
theorem handleRoute_registers_once_witness :
    verbOfMethod "get" = some Verb.GET
      ∧ ((handleRoute New ⟨"get", "/users", [1, 2]⟩ ginDefault).2.registrations
            = ginDefault.registrations ++ [⟨Verb.GET, "/users", [1, 2]⟩]
          ∧ (handleRoute New ⟨"get", "/users", [1, 2]⟩ ginDefault).2.middlewares
            = ginDefault.middlewares) :=
  ⟨rfl, handleRoute_registers_once New ⟨"get", "/users", [1, 2]⟩ ginDefault
    Verb.GET rfl⟩

/-- C2: for every route whose `Method` matches none of the seven recognized
strings (`verbOfMethod` returns `none`, in particular for upper- or
mixed-case spellings), `handleRoute` is a complete no-op: app and engine are
returned unchanged, with no error. -/
theorem handleRoute_drops_unrecognized (app : App) (route : Route)
    (e : GinEngine) (h : verbOfMethod route.Method = none) :
    handleRoute app route e = (app, e) := by
  obtain ⟨m, p, hs⟩ := route
  unfold verbOfMethod at h
  unfold handleRoute
  split at h <;> simp_all

/-- Witness for C2 at the upper-case spelling `"GET"`. -/
theorem handleRoute_drops_unrecognized_witness :
    verbOfMethod "GET" = none
      ∧ handleRoute New ⟨"GET", "/users", [1]⟩ ginDefault = (New, ginDefault) :=
  ⟨rfl, handleRoute_drops_unrecognized New ⟨"GET", "/users", [1]⟩ ginDefault rfl⟩

/-- C3: `getHTTPSHost` returns `APP_HTTPS_HOST` when non-empty, else
`APP_HTTP_HOST` when non-empty, else `"localhost"`; `getHTTPHost` returns
`APP_HTTP_HOST` when non-empty, else `"localhost"` — for every environment,
hence for all four set/unset combinations. -/
theorem host_fallback_precedence (app : App) (env : Env) :
    (getHTTPSHost app env).2
        = (if env "APP_HTTPS_HOST" ≠ "" then env "APP_HTTPS_HOST"
           else if env "APP_HTTP_HOST" ≠ "" then env "APP_HTTP_HOST"
           else "localhost")
      ∧ (getHTTPHost app env).2
        = (if env "APP_HTTP_HOST" ≠ "" then env "APP_HTTP_HOST"
           else "localhost") := by
  constructor <;>
    · simp only [getHTTPSHost, getHTTPHost]
      split_ifs <;> simp_all

/-- C4: when the log file opens, the plaintext listen address of `Run` has
port `"80"` exactly when `portNumber` is the empty string, and the untouched
`portNumber` itself otherwise. -/
theorem Run_port_default (app : App) (env : Env) (router : List Route)
    (ints : List Nat) (logOpenOk : String → Bool) (tls : Option String)
    (portNumber : String) (hlog : logOpenOk logsFilePath = true) :
    (Run app env router ints logOpenOk tls portNumber).2.httpAddr
      = some ((getHTTPHost app env).2 ++ ":"
          ++ (if portNumber = "" then "80" else portNumber)) := by
  unfold Run
  rw [hlog]
  rfl

/-- Witness for C4 at the empty port string: the plaintext address gets
port 80. -/
theorem Run_port_default_witness :
    ((fun _ : String => true) logsFilePath = true)
      ∧ (Run New (fun _ => "") [] [] (fun _ => true) none "").2.httpAddr
          = some "localhost:80" :=
  ⟨rfl, (Run_port_default New (fun _ => "") [] [] (fun _ => true) none ""
    rfl).trans rfl⟩

/-- C5: if opening the log file at the fixed path `logs/app.log` fails, `Run`
panics with nothing started; it proceeds past that point (no panic) exactly
when the open succeeds. -/
theorem Run_log_open_fatal (app : App) (env : Env) (router : List Route)
    (ints : List Nat) (logOpenOk : String → Bool) (tls : Option String)
    (port : String) :
    (logOpenOk logsFilePath = false →
      Run app env router ints logOpenOk tls port = (app, panicOutcome))
    ∧ (logOpenOk logsFilePath = true →
      (Run app env router ints logOpenOk tls port).2.panicked = false) := by
  constructor <;> intro h <;> unfold Run <;> rw [h] <;> rfl

/-- Witness for C5: with an always-failing open, `Run` only panics. -/
theorem Run_log_open_fatal_witness :
    ((fun _ : String => false) logsFilePath = false)
      ∧ Run New (fun _ => "") [] [] (fun _ => false) none "80"
          = (New, panicOutcome) :=
  ⟨rfl, (Run_log_open_fatal New (fun _ => "") [] [] (fun _ => false) none
    "80").1 rfl⟩

/-- C6: only `FeaturesControl` mutates `Features` (to its argument); every
other operation of the `App` returns the receiver with `Features`
unchanged. -/
theorem Features_mutation_frame (app : App) (features : Features) (env : Env)
    (envMap : List (String × String)) (router : List Route)
    (ints mids : List Nat) (e : GinEngine) (route : Route) (mode : String)
    (logOpenOk : String → Bool) (tls : Option String) (port : String) :
    (SetEnv app envMap env).1.Features = app.Features
    ∧ (Bootstrap app).Features = app.Features
    ∧ (Run app env router ints logOpenOk tls port).1.Features = app.Features
    ∧ (SetAppMode app mode).1.Features = app.Features
    ∧ (IntegratePackages app e ints).1.Features = app.Features
    ∧ (useMiddlewares app e mids).1.Features = app.Features
    ∧ (registerRoutes app router e).1.Features = app.Features
    ∧ (handleRoute app route e).1.Features = app.Features
    ∧ (getHTTPSHost app env).1.Features = app.Features
    ∧ (getHTTPHost app env).1.Features = app.Features
    ∧ (FeaturesControl app features).Features = features := by
  refine ⟨rfl, rfl, ?_, ?_, rfl, rfl, ?_, ?_, rfl, rfl, rfl⟩
  · rw [Run_fst]
  · unfold SetAppMode
    split <;> rfl
  · rw [registerRoutes_fst]
  · rw [handleRoute_fst]

/-- C7: with HTTPS enabled (and the log file opening), `Run` starts the HTTPS
listener at the HTTPS host on port 443 with the cert and key paths from the
environment, and the result of the spawned `RunTLS` is discarded: `Run`'s
outcome is the same whatever the listener's result is. -/
theorem Run_https_listener (app : App) (env : Env) (router : List Route)
    (ints : List Nat) (logOpenOk : String → Bool) (tls : Option String)
    (port : String) (hlog : logOpenOk logsFilePath = true)
    (hon : parseBoolDefFalse (env "APP_HTTPS_ON") = true) :
    (Run app env router ints logOpenOk tls port).2.httpsStarted = true
    ∧ (Run app env router ints logOpenOk tls port).2.httpsAddr
        = some ((getHTTPSHost app env).2 ++ ":443")
    ∧ (Run app env router ints logOpenOk tls port).2.certFile
        = some (env "APP_HTTPS_CERT_FILE_PATH")
    ∧ (Run app env router ints logOpenOk tls port).2.keyFile
        = some (env "APP_HTTPS_KEY_FILE_PATH")
    ∧ (∀ r1 r2 : Option String,
        Run app env router ints logOpenOk r1 port
          = Run app env router ints logOpenOk r2 port) := by
  refine ⟨?_, ?_, ?_, ?_, fun r1 r2 => rfl⟩ <;> (unfold Run; rw [hlog, hon]; rfl)

/-- Witness for C7: HTTPS on, empty hosts, so the listener sits at
`localhost:443`. -/
theorem Run_https_listener_witness :
    ((fun _ : String => true) logsFilePath = true)
      ∧ parseBoolDefFalse (envHttpsOnly "APP_HTTPS_ON") = true
      ∧ (Run New envHttpsOnly [] [] (fun _ => true) none "80").2.httpsStarted
          = true :=
  ⟨rfl, rfl,
    (Run_https_listener New envHttpsOnly [] [] (fun _ => true) none "80"
      rfl rfl).1⟩

/-- C8: `SetEnv` sets each variable with key and value trimmed: afterwards
any variable `q` holds the trimmed value of the last pair whose trimmed key
is `q`, and keeps its previous value when no pair's trimmed key is `q`. -/
theorem SetEnv_trims_before_setting (app : App)
    (envMap : List (String × String)) (env : Env) (q : String) :
    (SetEnv app envMap env).2 q
      = match envMap.reverse.find? (fun p => p.1.trim = q) with
        | some p => p.2.trim
        | none => env q :=
  SetEnv_fold_char envMap env q

/-- C9: `SetAppMode` sets the gin mode to the argument when it is one of the
three gin mode constants, silently falls back to `TestMode` otherwise, and in
every case leaves the mode set to one of the two, reporting no error. -/
theorem SetAppMode_total (app : App) (mode : String) :
    ((mode = ReleaseMode ∨ mode = TestMode ∨ mode = DebugMode) →
        SetAppMode app mode = (app, mode))
    ∧ (¬(mode = ReleaseMode ∨ mode = TestMode ∨ mode = DebugMode) →
        SetAppMode app mode = (app, TestMode))
    ∧ ((SetAppMode app mode).2 = mode ∨ (SetAppMode app mode).2 = TestMode) := by
  by_cases h1 : mode = ReleaseMode <;> by_cases h2 : mode = TestMode <;>
    by_cases h3 : mode = DebugMode <;> simp [SetAppMode, h1, h2, h3]

/-- Witness for C9 at `"release"`. -/
theorem SetAppMode_total_witness :
    ("release" = ReleaseMode ∨ "release" = TestMode ∨ "release" = DebugMode)
      ∧ SetAppMode New "release" = (New, "release") :=
  ⟨Or.inl rfl, (SetAppMode_total New "release").1 (Or.inl rfl)⟩

/-- C10: the redirect engine is started exactly when both `APP_HTTPS_ON` and
`APP_REDIRECT_HTTP_TO_HTTPS` parse as true; with HTTPS off the redirect flag
alone starts nothing; any string other than the six `ParseBool` true/false
spellings (and the false spellings themselves) parses as false. -/
theorem Run_redirect_iff (app : App) (env : Env) (router : List Route)
    (ints : List Nat) (logOpenOk : String → Bool) (tls : Option String)
    (port : String) (hlog : logOpenOk logsFilePath = true) :
    (Run app env router ints logOpenOk tls port).2.redirectStarted
      = (parseBoolDefFalse (env "APP_HTTPS_ON")
          && parseBoolDefFalse (env "APP_REDIRECT_HTTP_TO_HTTPS"))
    ∧ (parseBoolDefFalse (env "APP_HTTPS_ON") = false →
        (Run app env router ints logOpenOk tls port).2.redirectStarted = false)
    ∧ (∀ s : String, s ≠ "1" → s ≠ "t" → s ≠ "T" → s ≠ "true" → s ≠ "TRUE" →
        s ≠ "True" → parseBoolDefFalse s = false) :=
  ⟨by unfold Run; rw [hlog]; rfl,
   fun h => by unfold Run; rw [hlog, h]; rfl,
   fun s h1 h2 h3 h4 h5 h6 => by
     simp [parseBoolDefFalse, h1, h2, h3, h4, h5, h6]⟩

/-- Witness for C10: `APP_REDIRECT_HTTP_TO_HTTPS` set alone does not start
the redirect engine. -/
theorem Run_redirect_iff_witness :
    ((fun _ : String => true) logsFilePath = true)
      ∧ (Run New envRedirectOnly [] [] (fun _ => true) none "80").2.redirectStarted
          = false :=
  ⟨rfl,
    ((Run_redirect_iff New envRedirectOnly [] [] (fun _ => true) none "80"
      rfl).1).trans rfl⟩

end Condor
